import Mathlib

/-!
Shallow embedding of the elevator simulation core (elevator.py, floor.py,
building.py): dispatch arbitration, per-elevator queueing and travel-time
estimation, the per-tick motion state machine, and the per-floor call timers.
Wall-clock instants and vertical pixel positions are rationals; pygame
rendering, audio and raw mouse handling are outside the embedded core (the
arrival ring is modelled as the Option result of process_movement, and a
click is modelled by the index of the floor whose rectangle was hit).
-/

namespace ElevatorSim

/-- Direction enum from elevator.py. -/
inductive Direction where
  | UP
  | DOWN
  | PLACE
  deriving DecidableEq, Repr

/-- State of one elevator (elevator.py, Elevator). location_y is the vertical
component location[1] of the pygame position; the x component, the image and
the sound handle are rendering-only and omitted. -/
structure Elevator where
  number : ℕ
  floor : ℕ
  location_y : ℚ
  target_floor : ℕ
  floor_height : ℚ
  elevator_speed : ℚ
  time_elapsed : ℚ
  stay_time : ℚ
  queue : List ℕ
  last_floor : ℕ
  travel_direction : Direction
  stay : Bool
  deriving DecidableEq, Repr

/-- Elevator.__init__: floor 0, resting at the bottom of the screen
(location_y = height_screen - height, the image being scaled to one floor
tall), speed 0.5, empty queue, direction PLACE, not staying. -/
def initElevator (number : ℕ) (height height_screen : ℚ) : Elevator :=
  { number := number
    floor := 0
    location_y := height_screen - height
    target_floor := 0
    floor_height := height
    elevator_speed := 1 / 2
    time_elapsed := 0
    stay_time := 0
    queue := []
    last_floor := 0
    travel_direction := Direction.PLACE
    stay := false }

/-- Elevator.update_position: move by (now - last) * floor_height / speed in
the current travel direction while strictly short of the target height;
otherwise set direction PLACE, set stay, and report 1 (arrived). -/
def Elevator.update_position (e : Elevator) (current_time last_time height_floor : ℚ) :
    Elevator × ℕ :=
  let distance_to_move := (current_time - last_time) * e.floor_height / e.elevator_speed
  if e.travel_direction = Direction.UP ∧ e.location_y > height_floor then
    ({ e with location_y := e.location_y - distance_to_move }, 0)
  else if e.travel_direction = Direction.DOWN ∧ e.location_y < height_floor then
    ({ e with location_y := e.location_y + distance_to_move }, 0)
  else
    ({ e with travel_direction := Direction.PLACE, stay := true }, 1)

/-- Elevator.adjust_stay_time: accumulate dwell time; once it reaches 2
seconds clear the stay flag and reset the dwell clock. -/
def Elevator.adjust_stay_time (e : Elevator) (current_time last_time : ℚ) : Elevator :=
  let e1 := { e with stay_time := e.stay_time + (current_time - last_time) }
  if e1.stay_time ≥ 2 then { e1 with stay := false, stay_time := 0 } else e1

/-- Elevator.add_time. -/
def Elevator.add_time (e : Elevator) (number : ℚ) : Elevator :=
  { e with time_elapsed := e.time_elapsed + number }

/-- Elevator.process_movement: first decay time_elapsed by the tick delta
(clamping a nonpositive value to 0); then either dwell, or move toward the
given target height (returning the target floor on arrival, the ring), or pop
the queue head into target_floor, remembering the previous target in floor
and choosing UP exactly when the popped target is strictly higher. -/
def Elevator.process_movement (e : Elevator) (height_floor current_time last_time : ℚ) :
    Elevator × Option ℕ :=
  let e1 := if e.time_elapsed > 0
    then e.add_time (last_time - current_time)
    else { e with time_elapsed := 0 }
  if e1.stay then
    (e1.adjust_stay_time current_time last_time, none)
  else if e1.travel_direction ≠ Direction.PLACE then
    let p := e1.update_position current_time last_time height_floor
    if p.2 = 1 then (p.1, some p.1.target_floor) else (p.1, none)
  else
    match e1.queue with
    | [] => (e1, none)
    | t :: rest =>
      ({ e1 with
          floor := e1.target_floor
          target_floor := t
          queue := rest
          travel_direction := if e1.target_floor < t then Direction.UP else Direction.DOWN },
        none)

/-- Elevator.add_to_queue: append the floor, charge the committed-work
estimate abs(floor - last_floor) * speed + 2 to time_elapsed, and record the
floor as the last assigned one. -/
def Elevator.add_to_queue (e : Elevator) (number : ℕ) : Elevator :=
  let time_to_add := |(number : ℚ) - (e.last_floor : ℚ)| * e.elevator_speed + 2
  { e with
      queue := e.queue ++ [number]
      last_floor := number
      time_elapsed := e.time_elapsed + time_to_add }

/-- Elevator.calculate_time: the dispatch ranking estimate,
time_elapsed + abs(floor - last_floor) / 2. -/
def Elevator.calculate_time (e : Elevator) (floor : ℕ) : ℚ :=
  e.time_elapsed + |(floor : ℚ) - (e.last_floor : ℚ)| / 2

/-- State of one floor (floor.py, Floor): its index, the top of its pygame
rectangle, and the remaining call timer. Colors, fonts and brick drawing are
rendering-only and omitted. -/
structure Floor where
  number : ℕ
  top : ℚ
  time : ℚ
  deriving DecidableEq, Repr

/-- Floor.__init__ as instantiated by Building: floor n sits at
height_screen - (n + 1) * floor_height, timer 0. -/
def initFloor (number : ℕ) (floor_height height_screen : ℚ) : Floor :=
  { number := number
    top := height_screen - ((number : ℚ) + 1) * floor_height
    time := 0 }

/-- Floor.timer: if the call timer is positive, subtract the tick delta
(with no lower clamp in the same tick); otherwise reset it to 0. -/
def Floor.timer (fl : Floor) (current_time last_time : ℚ) : Floor :=
  if fl.time > 0 then { fl with time := fl.time - (current_time - last_time) }
  else { fl with time := 0 }

/-- Floor.increment_timer: overwrite a negative timer, accumulate otherwise. -/
def Floor.increment_timer (fl : Floor) (time_to_add : ℚ) : Floor :=
  if fl.time < 0 then { fl with time := time_to_add }
  else { fl with time := fl.time + time_to_add }

/-- A building (building.py): its elevators and floors in construction order
and the wall-clock reading of the previous tick. -/
structure Building where
  elevators : List Elevator
  floors : List Floor
  last_time : ℚ
  deriving DecidableEq, Repr

/-- Building.__init__ with num_floors + 1 floors and num_elevators elevators,
all floors of the given height, at clock reading t0. -/
def initBuilding (num_floors num_elevators : ℕ) (floor_height height_screen t0 : ℚ) :
    Building :=
  { elevators := (List.range num_elevators).map
      (fun i => initElevator i floor_height height_screen)
    floors := (List.range (num_floors + 1)).map
      (fun n => initFloor n floor_height height_screen)
    last_time := t0 }

/-- Replace the element at one position of a list. -/
def updateAt {α : Type} : List α → ℕ → (α → α) → List α
  | [], _, _ => []
  | x :: xs, 0, g => g x :: xs
  | x :: xs, n + 1, g => x :: updateAt xs n g

/-- The elevator loop of Building.assign_and_dispatch_nearest_elevator: scan
the elevators in order carrying the best (index, estimate) so far (none plays
the role of the initial infinity); an elevator already targeting the clicked
floor aborts the whole request; otherwise an elevator replaces the running
best exactly when its estimate is strictly smaller. -/
def scanLoop : List Elevator → ℕ → ℕ → Option (ℕ × ℚ) → Option (ℕ × ℚ)
  | [], _, _, best => best
  | e :: rest, f, i, best =>
    if e.target_floor = f then none
    else
      scanLoop rest f (i + 1)
        (match best with
          | none => some (i, e.calculate_time f)
          | some (j, m) =>
            if e.calculate_time f < m then some (i, e.calculate_time f) else some (j, m))

/-- The full elevator selection for a clicked floor. -/
def dispatchScan (es : List Elevator) (f : ℕ) : Option (ℕ × ℚ) :=
  scanLoop es f 0 none

/-- Building.assign_and_dispatch_nearest_elevator, at the level of the
clicked floor index f: the handle_events guard admits the click only when
the floor exists and its timer is nonpositive; then the scan either aborts
(already-targeted floor, or no elevators) leaving the building unchanged, or
commits the floor to the winning elevator and arms the floor timer with the
winning estimate. Floor numbers equal their list indices in every building
built by initBuilding, so the mutation of the clicked floor is an update at
index f. -/
def click (b : Building) (f : ℕ) : Building :=
  match b.floors.get? f with
  | none => b
  | some fl =>
    if fl.time ≤ 0 then
      match dispatchScan b.elevators f with
      | none => b
      | some (i, m) =>
        { b with
            elevators := updateAt b.elevators i (fun e => e.add_to_queue f)
            floors := updateAt b.floors f (fun g => g.increment_timer m) }
    else b

/-- One elevator step of Building.update_elevator_movement: the target height
handed to the elevator is the top of its target floor's rectangle (every
reachable target is a valid index; the getD default is never consulted
there). -/
def elevTick (b : Building) (e : Elevator) (current_time : ℚ) : Elevator :=
  let height_floor := ((b.floors.get? e.target_floor).map (fun fl => fl.top)).getD 0
  (e.process_movement height_floor current_time b.last_time).1

/-- Building.process_elevator_movement: advance every elevator and every
floor timer against the same (now, last_time) pair, then store now. -/
def tick (b : Building) (current_time : ℚ) : Building :=
  { elevators := b.elevators.map (fun e => elevTick b e current_time)
    floors := b.floors.map (fun fl => fl.timer current_time b.last_time)
    last_time := current_time }

/-- States reachable from a start state by any interleaving of clicks and
clock-monotone ticks. -/
inductive Reach (b0 : Building) : Building → Prop where
  | start : Reach b0 b0
  | step_click (b : Building) (f : ℕ) : Reach b0 b → Reach b0 (click b f)
  | step_tick (b : Building) (ct : ℚ) : Reach b0 b → b.last_time ≤ ct →
      Reach b0 (tick b ct)

/-- Number of elevators currently targeting floor f while in a MOVING state
(direction not PLACE) or DWELLING (stay set). -/
def servingCount (b : Building) (f : ℕ) : ℕ :=
  (b.elevators.filter
    (fun e => decide (e.target_floor = f ∧ (e.travel_direction ≠ Direction.PLACE ∨ e.stay = true)))).length

/-- Elevator A of the worked dispatch example: fresh, no committed work. -/
def elevA : Elevator := initElevator 0 1 100

/-- Elevator B of the worked dispatch example: 5 seconds of committed work,
last assigned floor 0. -/
def elevB : Elevator := { initElevator 1 1 100 with time_elapsed := 5 }

/-- The two-elevator example building (floors 0..9, unit floor height). -/
def bldAB : Building := { initBuilding 9 2 1 100 0 with elevators := [elevA, elevB] }

/-- A fresh one-elevator building used for the side-effect example. -/
def bld1 : Building := initBuilding 9 1 1 100 0

/-- A fresh two-elevator building dispatched once to floor 5. -/
def b5 : Building := click (initBuilding 9 2 1 100 0) 5

/-- The duplicate-assignment trace: clicks on floors 9, 8 and 3 (floor 3 ends
up queued behind floor 8 in elevator 1), three coarse ticks, then clicks on
floors 1 and 3 (floor 3's timer has expired while it is still queued, and the
re-click is won by elevator 0), then two more ticks after which both
elevators are moving toward floor 3. -/
def traceC6 : Building :=
  tick (tick (click (click (tick (tick (tick
    (click (click (click (initBuilding 9 2 1 100 0) 9) 8) 3) 10) 20) 30) 1) 3) 40) 50

/-! ### Helper lemmas about the dispatch scan and the click update -/

lemma scanLoop_abort (f : ℕ) :
    ∀ (es : List Elevator) (i : ℕ) (acc : Option (ℕ × ℚ)),
      (∃ e ∈ es, e.target_floor = f) → scanLoop es f i acc = none := by
  intro es
  induction es with
  | nil => intro i acc h; exact absurd h (by simp)
  | cons e rest ih =>
    intro i acc h
    by_cases he : e.target_floor = f
    · simp [scanLoop, he]
    · obtain ⟨x, hx, hxt⟩ := h
      rcases List.mem_cons.mp hx with h1 | h2
      · exact absurd (h1 ▸ hxt) he
      · simp only [scanLoop, if_neg he]
        exact ih (i + 1) _ ⟨x, h2, hxt⟩

lemma dispatchScan_none (es : List Elevator) (f : ℕ)
    (h : ∃ e ∈ es, e.target_floor = f) : dispatchScan es f = none :=
  scanLoop_abort f es 0 none h

lemma click_noop_of_target (b : Building) (f : ℕ)
    (h : ∃ e ∈ b.elevators, e.target_floor = f) : click b f = b := by
  unfold click
  split
  · rfl
  · split
    · rw [dispatchScan_none b.elevators f h]
    · rfl

lemma updateAt_get?_self {α : Type} (g : α → α) :
    ∀ (l : List α) (i : ℕ), (updateAt l i g).get? i = (l.get? i).map g := by
  intro l
  induction l with
  | nil => intro i; cases i <;> rfl
  | cons x xs ih =>
    intro i
    cases i with
    | zero => rfl
    | succ i0 => exact ih i0

lemma click_of_some (b : Building) (f : ℕ) (fl : Floor) (i : ℕ) (m : ℚ)
    (hf : b.floors.get? f = some fl) (ht : fl.time ≤ 0)
    (hd : dispatchScan b.elevators f = some (i, m)) :
    click b f =
      { b with
          elevators := updateAt b.elevators i (fun e => e.add_to_queue f)
          floors := updateAt b.floors f (fun g => g.increment_timer m) } := by
  unfold click
  split
  · rename_i heq
    rw [heq] at hf
    exact absurd hf (by simp)
  · rename_i fl2 heq
    rw [heq] at hf
    obtain rfl : fl2 = fl := by injection hf
    rw [if_pos ht]
    split
    · rename_i hnone
      rw [hnone] at hd
      exact absurd hd (by simp)
    · rename_i i2 m2 hsome
      rw [hsome] at hd
      simp only [Option.some.injEq, Prod.mk.injEq] at hd
      obtain ⟨rfl, rfl⟩ := hd
      rfl

lemma scanLoop_some_spec (f : ℕ) :
    ∀ (es : List Elevator) (i j : ℕ) (m : ℚ),
      (∀ e ∈ es, e.target_floor ≠ f) →
      ∃ j2 m2,
        scanLoop es f i (some (j, m)) = some (j2, m2) ∧
        m2 ≤ m ∧
        (∀ k ek, es.get? k = some ek → m2 ≤ ek.calculate_time f) ∧
        ((j2 = j ∧ m2 = m) ∨
          ∃ k ek, es.get? k = some ek ∧ j2 = i + k ∧ m2 = ek.calculate_time f ∧ m2 < m ∧
            ∀ l el, es.get? l = some el → l < k → m2 < el.calculate_time f) := by
  intro es
  induction es with
  | nil =>
    intro i j m _
    refine ⟨j, m, rfl, le_refl m, ?_, Or.inl ⟨rfl, rfl⟩⟩
    intro k ek hk
    exact absurd hk (by simp)
  | cons e rest ih =>
    intro i j m hne
    have het : e.target_floor ≠ f := hne e (List.mem_cons_self e rest)
    have hner : ∀ x ∈ rest, x.target_floor ≠ f :=
      fun x hx => hne x (List.mem_cons_of_mem e hx)
    by_cases hlt : e.calculate_time f < m
    · obtain ⟨j2, m2, heq, hle2, hall, hdisj⟩ := ih (i + 1) i (e.calculate_time f) hner
      refine ⟨j2, m2, ?_, le_of_lt (lt_of_le_of_lt hle2 hlt), ?_, ?_⟩
      · simp only [scanLoop, if_neg het, if_pos hlt]
        exact heq
      · intro k ek hk
        cases k with
        | zero =>
          obtain rfl : e = ek := by injection hk
          exact hle2
        | succ k0 => exact hall k0 ek hk
      · refine Or.inr ?_
        rcases hdisj with ⟨hj2, hm2⟩ | ⟨k, ek, hk, hj2, hm2, hm2lt, hfirst⟩
        · refine ⟨0, e, rfl, by omega, hm2, lt_of_le_of_lt hle2 hlt, ?_⟩
          intro l el hl hl0
          exact absurd hl0 (Nat.not_lt_zero l)
        · refine ⟨k + 1, ek, hk, by omega, hm2, lt_trans hm2lt hlt, ?_⟩
          intro l el hl hlk
          cases l with
          | zero =>
            obtain rfl : e = el := by injection hl
            exact hm2lt
          | succ l0 => exact hfirst l0 el hl (by omega)
    · obtain ⟨j2, m2, heq, hle2, hall, hdisj⟩ := ih (i + 1) j m hner
      refine ⟨j2, m2, ?_, hle2, ?_, ?_⟩
      · simp only [scanLoop, if_neg het, if_neg hlt]
        exact heq
      · intro k ek hk
        cases k with
        | zero =>
          obtain rfl : e = ek := by injection hk
          exact le_trans hle2 (le_of_not_lt hlt)
        | succ k0 => exact hall k0 ek hk
      · rcases hdisj with ⟨hj2, hm2⟩ | ⟨k, ek, hk, hj2, hm2, hm2lt, hfirst⟩
        · exact Or.inl ⟨hj2, hm2⟩
        · refine Or.inr ⟨k + 1, ek, hk, by omega, hm2, hm2lt, ?_⟩
          intro l el hl hlk
          cases l with
          | zero =>
            obtain rfl : e = el := by injection hl
            exact lt_of_lt_of_le hm2lt (le_of_not_lt hlt)
          | succ l0 => exact hfirst l0 el hl (by omega)

lemma dispatchScan_spec (es : List Elevator) (f : ℕ) (i : ℕ) (m : ℚ)
    (hne : ∀ e ∈ es, e.target_floor ≠ f)
    (hs : dispatchScan es f = some (i, m)) :
    (∃ ei, es.get? i = some ei ∧ m = ei.calculate_time f) ∧
    (∀ k ek, es.get? k = some ek → m ≤ ek.calculate_time f) ∧
    (∀ k ek, es.get? k = some ek → k < i → m < ek.calculate_time f) := by
  cases es with
  | nil => exact absurd hs (by simp [dispatchScan, scanLoop])
  | cons e0 rest =>
    have het : e0.target_floor ≠ f := hne e0 (List.mem_cons_self e0 rest)
    have hner : ∀ x ∈ rest, x.target_floor ≠ f :=
      fun x hx => hne x (List.mem_cons_of_mem e0 hx)
    obtain ⟨j2, m2, heq, hle2, hall, hdisj⟩ :=
      scanLoop_some_spec f rest 1 0 (e0.calculate_time f) hner
    have hs2 : dispatchScan (e0 :: rest) f = some (j2, m2) := by
      simp only [dispatchScan, scanLoop, if_neg het]
      exact heq
    rw [hs] at hs2
    simp only [Option.some.injEq, Prod.mk.injEq] at hs2
    obtain ⟨rfl, rfl⟩ := hs2
    rcases hdisj with ⟨hj2, hm2⟩ | ⟨k, ek, hk, hj2, hm2, hm2lt, hfirst⟩
    · subst hj2
      subst hm2
      refine ⟨⟨e0, rfl, rfl⟩, ?_, ?_⟩
      · intro k ek hk
        cases k with
        | zero =>
          obtain rfl : e0 = ek := by injection hk
          exact le_refl _
        | succ k0 => exact hall k0 ek hk
      · intro k ek hk hk0
        exact absurd hk0 (Nat.not_lt_zero k)
    · subst hj2
      have hidx : (1 + k : ℕ) = k + 1 := by omega
      refine ⟨⟨ek, by rw [hidx]; exact hk, hm2⟩, ?_, ?_⟩
      · intro k0 ek0 hk0
        cases k0 with
        | zero =>
          obtain rfl : e0 = ek0 := by injection hk0
          exact le_of_lt hm2lt
        | succ k1 => exact hall k1 ek0 hk0
      · intro k0 ek0 hk0 hklt
        cases k0 with
        | zero =>
          obtain rfl : e0 = ek0 := by injection hk0
          exact hm2lt
        | succ k1 => exact hfirst k1 ek0 hk0 (by omega)

/-! ### Concrete states, written out literally, and evaluation lemmas.
The kernel cannot reduce rational arithmetic, so every concrete run of the
model is proved against explicit literal states with norm_num, one dispatch
or tick at a time. -/

/-- The literal form of bldAB. -/
lemma bldAB_eq :
    bldAB =
      ⟨[⟨0, 0, 99, 0, 1, (1/2 : ℚ), 0, 0, [], 0, Direction.PLACE, false⟩,
        ⟨1, 0, 99, 0, 1, (1/2 : ℚ), 5, 0, [], 0, Direction.PLACE, false⟩],
       [⟨0, 99, 0⟩, ⟨1, 98, 0⟩, ⟨2, 97, 0⟩, ⟨3, 96, 0⟩, ⟨4, 95, 0⟩, ⟨5, 94, 0⟩,
        ⟨6, 93, 0⟩, ⟨7, 92, 0⟩, ⟨8, 91, 0⟩, ⟨9, 90, 0⟩], 0⟩ := by
  norm_num [bldAB, elevA, elevB, initBuilding, initElevator, initFloor, List.range_succ]

/-- Dispatching floor 3 in bldAB, evaluated. -/
lemma click_bldAB_eq :
    click bldAB 3 =
      ⟨[⟨0, 0, 99, 0, 1, (1/2 : ℚ), (7/2 : ℚ), 0, [3], 3, Direction.PLACE, false⟩,
        ⟨1, 0, 99, 0, 1, (1/2 : ℚ), 5, 0, [], 0, Direction.PLACE, false⟩],
       [⟨0, 99, 0⟩, ⟨1, 98, 0⟩, ⟨2, 97, 0⟩, ⟨3, 96, (3/2 : ℚ)⟩, ⟨4, 95, 0⟩, ⟨5, 94, 0⟩,
        ⟨6, 93, 0⟩, ⟨7, 92, 0⟩, ⟨8, 91, 0⟩, ⟨9, 90, 0⟩], 0⟩ := by
  rw [bldAB_eq]
  norm_num [reduceCtorEq, click, dispatchScan, scanLoop, updateAt, Elevator.add_to_queue,
    Elevator.calculate_time, Floor.increment_timer]

/-- The literal form of bld1. -/
lemma bld1_eq :
    bld1 =
      ⟨[⟨0, 0, 99, 0, 1, (1/2 : ℚ), 0, 0, [], 0, Direction.PLACE, false⟩],
       [⟨0, 99, 0⟩, ⟨1, 98, 0⟩, ⟨2, 97, 0⟩, ⟨3, 96, 0⟩, ⟨4, 95, 0⟩, ⟨5, 94, 0⟩,
        ⟨6, 93, 0⟩, ⟨7, 92, 0⟩, ⟨8, 91, 0⟩, ⟨9, 90, 0⟩], 0⟩ := by
  norm_num [bld1, initBuilding, initElevator, initFloor, List.range_succ]

/-- Dispatching floor 3 in the fresh one-elevator building, evaluated. -/
lemma click_bld1_eq :
    click bld1 3 =
      ⟨[⟨0, 0, 99, 0, 1, (1/2 : ℚ), (7/2 : ℚ), 0, [3], 3, Direction.PLACE, false⟩],
       [⟨0, 99, 0⟩, ⟨1, 98, 0⟩, ⟨2, 97, 0⟩, ⟨3, 96, (3/2 : ℚ)⟩, ⟨4, 95, 0⟩, ⟨5, 94, 0⟩,
        ⟨6, 93, 0⟩, ⟨7, 92, 0⟩, ⟨8, 91, 0⟩, ⟨9, 90, 0⟩], 0⟩ := by
  rw [bld1_eq]
  norm_num [reduceCtorEq, click, dispatchScan, scanLoop, updateAt, Elevator.add_to_queue,
    Elevator.calculate_time, Floor.increment_timer]

/-- Dispatching floor 5 in the fresh two-elevator building, evaluated. -/
lemma b5_eq :
    b5 =
      ⟨[⟨0, 0, 99, 0, 1, (1/2 : ℚ), (9/2 : ℚ), 0, [5], 5, Direction.PLACE, false⟩,
        ⟨1, 0, 99, 0, 1, (1/2 : ℚ), 0, 0, [], 0, Direction.PLACE, false⟩],
       [⟨0, 99, 0⟩, ⟨1, 98, 0⟩, ⟨2, 97, 0⟩, ⟨3, 96, 0⟩, ⟨4, 95, 0⟩, ⟨5, 94, (5/2 : ℚ)⟩,
        ⟨6, 93, 0⟩, ⟨7, 92, 0⟩, ⟨8, 91, 0⟩, ⟨9, 90, 0⟩], 0⟩ := by
  show click (initBuilding 9 2 1 100 0) 5 = _
  have h0 : initBuilding 9 2 1 100 0 =
      ⟨[⟨0, 0, 99, 0, 1, (1/2 : ℚ), 0, 0, [], 0, Direction.PLACE, false⟩,
        ⟨1, 0, 99, 0, 1, (1/2 : ℚ), 0, 0, [], 0, Direction.PLACE, false⟩],
       [⟨0, 99, 0⟩, ⟨1, 98, 0⟩, ⟨2, 97, 0⟩, ⟨3, 96, 0⟩, ⟨4, 95, 0⟩, ⟨5, 94, 0⟩,
        ⟨6, 93, 0⟩, ⟨7, 92, 0⟩, ⟨8, 91, 0⟩, ⟨9, 90, 0⟩], 0⟩ := by
    norm_num [initBuilding, initElevator, initFloor, List.range_succ]
  rw [h0]
  norm_num [reduceCtorEq, click, dispatchScan, scanLoop, updateAt, Elevator.add_to_queue,
    Elevator.calculate_time, Floor.increment_timer]

/-! The intermediate states of the duplicate-assignment run, one literal per
step, and the step evaluations. -/

def bS0 : Building :=
  ⟨[⟨0, 0, 99, 0, 1, (1/2 : ℚ), 0, 0, [], 0, Direction.PLACE, false⟩,
    ⟨1, 0, 99, 0, 1, (1/2 : ℚ), 0, 0, [], 0, Direction.PLACE, false⟩],
   [⟨0, 99, 0⟩, ⟨1, 98, 0⟩, ⟨2, 97, 0⟩, ⟨3, 96, 0⟩, ⟨4, 95, 0⟩, ⟨5, 94, 0⟩,
    ⟨6, 93, 0⟩, ⟨7, 92, 0⟩, ⟨8, 91, 0⟩, ⟨9, 90, 0⟩], 0⟩

def bS1 : Building :=
  ⟨[⟨0, 0, 99, 0, 1, (1/2 : ℚ), (13/2 : ℚ), 0, [9], 9, Direction.PLACE, false⟩,
    ⟨1, 0, 99, 0, 1, (1/2 : ℚ), 0, 0, [], 0, Direction.PLACE, false⟩],
   [⟨0, 99, 0⟩, ⟨1, 98, 0⟩, ⟨2, 97, 0⟩, ⟨3, 96, 0⟩, ⟨4, 95, 0⟩, ⟨5, 94, 0⟩,
    ⟨6, 93, 0⟩, ⟨7, 92, 0⟩, ⟨8, 91, 0⟩, ⟨9, 90, (9/2 : ℚ)⟩], 0⟩

def bS2 : Building :=
  ⟨[⟨0, 0, 99, 0, 1, (1/2 : ℚ), (13/2 : ℚ), 0, [9], 9, Direction.PLACE, false⟩,
    ⟨1, 0, 99, 0, 1, (1/2 : ℚ), 6, 0, [8], 8, Direction.PLACE, false⟩],
   [⟨0, 99, 0⟩, ⟨1, 98, 0⟩, ⟨2, 97, 0⟩, ⟨3, 96, 0⟩, ⟨4, 95, 0⟩, ⟨5, 94, 0⟩,
    ⟨6, 93, 0⟩, ⟨7, 92, 0⟩, ⟨8, 91, 4⟩, ⟨9, 90, (9/2 : ℚ)⟩], 0⟩

def bS3 : Building :=
  ⟨[⟨0, 0, 99, 0, 1, (1/2 : ℚ), (13/2 : ℚ), 0, [9], 9, Direction.PLACE, false⟩,
    ⟨1, 0, 99, 0, 1, (1/2 : ℚ), (21/2 : ℚ), 0, [8, 3], 3, Direction.PLACE, false⟩],
   [⟨0, 99, 0⟩, ⟨1, 98, 0⟩, ⟨2, 97, 0⟩, ⟨3, 96, (17/2 : ℚ)⟩, ⟨4, 95, 0⟩, ⟨5, 94, 0⟩,
    ⟨6, 93, 0⟩, ⟨7, 92, 0⟩, ⟨8, 91, 4⟩, ⟨9, 90, (9/2 : ℚ)⟩], 0⟩

def bS4 : Building :=
  ⟨[⟨0, 0, 99, 9, 1, (1/2 : ℚ), (-7/2 : ℚ), 0, [], 9, Direction.UP, false⟩,
    ⟨1, 0, 99, 8, 1, (1/2 : ℚ), (1/2 : ℚ), 0, [3], 3, Direction.UP, false⟩],
   [⟨0, 99, 0⟩, ⟨1, 98, 0⟩, ⟨2, 97, 0⟩, ⟨3, 96, (-3/2 : ℚ)⟩, ⟨4, 95, 0⟩, ⟨5, 94, 0⟩,
    ⟨6, 93, 0⟩, ⟨7, 92, 0⟩, ⟨8, 91, -6⟩, ⟨9, 90, (-11/2 : ℚ)⟩], 10⟩

def bS5 : Building :=
  ⟨[⟨0, 0, 79, 9, 1, (1/2 : ℚ), 0, 0, [], 9, Direction.UP, false⟩,
    ⟨1, 0, 79, 8, 1, (1/2 : ℚ), (-19/2 : ℚ), 0, [3], 3, Direction.UP, false⟩],
   [⟨0, 99, 0⟩, ⟨1, 98, 0⟩, ⟨2, 97, 0⟩, ⟨3, 96, 0⟩, ⟨4, 95, 0⟩, ⟨5, 94, 0⟩,
    ⟨6, 93, 0⟩, ⟨7, 92, 0⟩, ⟨8, 91, 0⟩, ⟨9, 90, 0⟩], 20⟩

def bS6 : Building :=
  ⟨[⟨0, 0, 79, 9, 1, (1/2 : ℚ), 0, 0, [], 9, Direction.PLACE, true⟩,
    ⟨1, 0, 79, 8, 1, (1/2 : ℚ), 0, 0, [3], 3, Direction.PLACE, true⟩],
   [⟨0, 99, 0⟩, ⟨1, 98, 0⟩, ⟨2, 97, 0⟩, ⟨3, 96, 0⟩, ⟨4, 95, 0⟩, ⟨5, 94, 0⟩,
    ⟨6, 93, 0⟩, ⟨7, 92, 0⟩, ⟨8, 91, 0⟩, ⟨9, 90, 0⟩], 30⟩

def bS7 : Building :=
  ⟨[⟨0, 0, 79, 9, 1, (1/2 : ℚ), 0, 0, [], 9, Direction.PLACE, true⟩,
    ⟨1, 0, 79, 8, 1, (1/2 : ℚ), 3, 0, [3, 1], 1, Direction.PLACE, true⟩],
   [⟨0, 99, 0⟩, ⟨1, 98, 1⟩, ⟨2, 97, 0⟩, ⟨3, 96, 0⟩, ⟨4, 95, 0⟩, ⟨5, 94, 0⟩,
    ⟨6, 93, 0⟩, ⟨7, 92, 0⟩, ⟨8, 91, 0⟩, ⟨9, 90, 0⟩], 30⟩

def bS8 : Building :=
  ⟨[⟨0, 0, 79, 9, 1, (1/2 : ℚ), 5, 0, [3], 3, Direction.PLACE, true⟩,
    ⟨1, 0, 79, 8, 1, (1/2 : ℚ), 3, 0, [3, 1], 1, Direction.PLACE, true⟩],
   [⟨0, 99, 0⟩, ⟨1, 98, 1⟩, ⟨2, 97, 0⟩, ⟨3, 96, 3⟩, ⟨4, 95, 0⟩, ⟨5, 94, 0⟩,
    ⟨6, 93, 0⟩, ⟨7, 92, 0⟩, ⟨8, 91, 0⟩, ⟨9, 90, 0⟩], 30⟩

def bS9 : Building :=
  ⟨[⟨0, 0, 79, 9, 1, (1/2 : ℚ), -5, 0, [3], 3, Direction.PLACE, false⟩,
    ⟨1, 0, 79, 8, 1, (1/2 : ℚ), -7, 0, [3, 1], 1, Direction.PLACE, false⟩],
   [⟨0, 99, 0⟩, ⟨1, 98, -9⟩, ⟨2, 97, 0⟩, ⟨3, 96, -7⟩, ⟨4, 95, 0⟩, ⟨5, 94, 0⟩,
    ⟨6, 93, 0⟩, ⟨7, 92, 0⟩, ⟨8, 91, 0⟩, ⟨9, 90, 0⟩], 40⟩

def bS10 : Building :=
  ⟨[⟨0, 9, 79, 3, 1, (1/2 : ℚ), 0, 0, [], 3, Direction.DOWN, false⟩,
    ⟨1, 8, 79, 3, 1, (1/2 : ℚ), 0, 0, [1], 1, Direction.DOWN, false⟩],
   [⟨0, 99, 0⟩, ⟨1, 98, 0⟩, ⟨2, 97, 0⟩, ⟨3, 96, 0⟩, ⟨4, 95, 0⟩, ⟨5, 94, 0⟩,
    ⟨6, 93, 0⟩, ⟨7, 92, 0⟩, ⟨8, 91, 0⟩, ⟨9, 90, 0⟩], 50⟩

lemma stepS0 : initBuilding 9 2 1 100 0 = bS0 := by
  norm_num [initBuilding, initElevator, initFloor, List.range_succ, bS0]

lemma stepS1 : click bS0 9 = bS1 := by
  norm_num [reduceCtorEq, click, dispatchScan, scanLoop, updateAt, Elevator.add_to_queue,
    Elevator.calculate_time, Floor.increment_timer, bS0, bS1]

lemma stepS2 : click bS1 8 = bS2 := by
  norm_num [reduceCtorEq, click, dispatchScan, scanLoop, updateAt, Elevator.add_to_queue,
    Elevator.calculate_time, Floor.increment_timer, bS1, bS2]

lemma stepS3 : click bS2 3 = bS3 := by
  norm_num [reduceCtorEq, click, dispatchScan, scanLoop, updateAt, Elevator.add_to_queue,
    Elevator.calculate_time, Floor.increment_timer, bS2, bS3]

lemma stepS4 : tick bS3 10 = bS4 := by
  norm_num [reduceCtorEq, tick, elevTick, Elevator.process_movement, Elevator.update_position,
    Elevator.adjust_stay_time, Elevator.add_time, Floor.timer, bS3, bS4]

lemma stepS5 : tick bS4 20 = bS5 := by
  norm_num [reduceCtorEq, tick, elevTick, Elevator.process_movement, Elevator.update_position,
    Elevator.adjust_stay_time, Elevator.add_time, Floor.timer, bS4, bS5]
  all_goals simp

lemma stepS6 : tick bS5 30 = bS6 := by
  norm_num [reduceCtorEq, tick, elevTick, Elevator.process_movement, Elevator.update_position,
    Elevator.adjust_stay_time, Elevator.add_time, Floor.timer, bS5, bS6]
  all_goals simp

lemma stepS7 : click bS6 1 = bS7 := by
  norm_num [reduceCtorEq, click, dispatchScan, scanLoop, updateAt, Elevator.add_to_queue,
    Elevator.calculate_time, Floor.increment_timer, bS6, bS7]

lemma stepS8 : click bS7 3 = bS8 := by
  norm_num [reduceCtorEq, click, dispatchScan, scanLoop, updateAt, Elevator.add_to_queue,
    Elevator.calculate_time, Floor.increment_timer, bS7, bS8]

lemma stepS9 : tick bS8 40 = bS9 := by
  norm_num [reduceCtorEq, tick, elevTick, Elevator.process_movement, Elevator.update_position,
    Elevator.adjust_stay_time, Elevator.add_time, Floor.timer, bS8, bS9]

lemma stepS10 : tick bS9 50 = bS10 := by
  norm_num [reduceCtorEq, tick, elevTick, Elevator.process_movement, Elevator.update_position,
    Elevator.adjust_stay_time, Elevator.add_time, Floor.timer, bS9, bS10]

lemma prefixS3 : click (click (click (initBuilding 9 2 1 100 0) 9) 8) 3 = bS3 := by
  rw [stepS0, stepS1, stepS2, stepS3]

lemma prefixS4 : tick (click (click (click (initBuilding 9 2 1 100 0) 9) 8) 3) 10 = bS4 := by
  rw [prefixS3, stepS4]

lemma prefixS5 :
    tick (tick (click (click (click (initBuilding 9 2 1 100 0) 9) 8) 3) 10) 20 = bS5 := by
  rw [prefixS4, stepS5]

lemma prefixS6 :
    tick (tick (tick (click (click (click (initBuilding 9 2 1 100 0) 9) 8) 3) 10) 20) 30
      = bS6 := by
  rw [prefixS5, stepS6]

lemma prefixS7 :
    click (tick (tick (tick (click (click (click (initBuilding 9 2 1 100 0) 9) 8) 3) 10) 20) 30) 1
      = bS7 := by
  rw [prefixS6, stepS7]

lemma prefixS8 :
    click (click (tick (tick (tick
      (click (click (click (initBuilding 9 2 1 100 0) 9) 8) 3) 10) 20) 30) 1) 3 = bS8 := by
  rw [prefixS7, stepS8]

lemma prefixS9 :
    tick (click (click (tick (tick (tick
      (click (click (click (initBuilding 9 2 1 100 0) 9) 8) 3) 10) 20) 30) 1) 3) 40 = bS9 := by
  rw [prefixS8, stepS9]

lemma traceC6_eq : traceC6 = bS10 := by
  rw [traceC6, prefixS9, stepS10]

/-! ### C1: the dispatch ranking estimate -/

/-- C1 counterexample: the ranking estimate of a fresh elevator for floor 3
is 3/2, not committedWork + distance * unitTimePerFloor + 2 = 7/2: the fixed
dwell penalty is absent from Elevator.calculate_time. -/
theorem c1_counterexample :
    (initElevator 0 1 100).calculate_time 3 = 3 / 2 ∧
    (initElevator 0 1 100).time_elapsed
        + |(3 : ℚ) - (((initElevator 0 1 100).last_floor : ℕ) : ℚ)| * (1 / 2) + 2 = 7 / 2 ∧
    (3 / 2 : ℚ) ≠ 7 / 2 := by
  refine ⟨by norm_num [initElevator, Elevator.calculate_time],
    by norm_num [initElevator], by norm_num⟩

/-- C1 (amended): the ranking estimate Elevator.calculate_time equals
committedWorkSeconds + |toFloor - lastAssignedFloor| / 2 with no fixed dwell
penalty; the fixed +2 dwell penalty is charged to the committed work only
when the floor is actually committed by Elevator.add_to_queue. -/
theorem c1_estimate_formula :
    ∀ (e : Elevator) (f : ℕ),
      e.calculate_time f = e.time_elapsed + |(f : ℚ) - (e.last_floor : ℚ)| / 2 ∧
      (e.add_to_queue f).time_elapsed
        = e.time_elapsed + (|(f : ℚ) - (e.last_floor : ℚ)| * e.elevator_speed + 2) := by
  intro e f
  exact ⟨rfl, rfl⟩

/-! ### C2: minimum-estimate dispatch -/

/-- C2 counterexample: in the worked example the code's estimates are 3/2
for A and 13/2 for B, not the claimed 5 and 10. -/
theorem c2_counterexample :
    elevA.calculate_time 3 = 3 / 2 ∧ (3 / 2 : ℚ) ≠ 5 ∧
    elevB.calculate_time 3 = 13 / 2 ∧ (13 / 2 : ℚ) ≠ 10 := by
  refine ⟨by norm_num [elevA, initElevator, Elevator.calculate_time], by norm_num,
    by norm_num [elevB, initElevator, Elevator.calculate_time], by norm_num⟩

/-- C2 (amended): on a valid clickable floor targeted by no elevator, the
dispatcher picks the elevator whose Elevator.calculate_time estimate is
minimal, ties broken in favor of the earliest elevator in iteration order,
and commits the floor to it; in the worked A/B example the estimates are 3/2
and 13/2 and A (index 0) is chosen. -/
theorem c2_min_dispatch :
    (∀ (b : Building) (f : ℕ) (fl : Floor) (i : ℕ) (m : ℚ),
      b.floors.get? f = some fl → fl.time ≤ 0 →
      (∀ e ∈ b.elevators, e.target_floor ≠ f) →
      dispatchScan b.elevators f = some (i, m) →
      (∃ ei, b.elevators.get? i = some ei ∧ m = ei.calculate_time f) ∧
      (∀ k ek, b.elevators.get? k = some ek → m ≤ ek.calculate_time f) ∧
      (∀ k ek, b.elevators.get? k = some ek → k < i → m < ek.calculate_time f) ∧
      click b f =
        { b with
            elevators := updateAt b.elevators i (fun e => e.add_to_queue f)
            floors := updateAt b.floors f (fun g => g.increment_timer m) }) ∧
    elevA.calculate_time 3 = 3 / 2 ∧
    elevB.calculate_time 3 = 13 / 2 ∧
    dispatchScan bldAB.elevators 3 = some (0, 3 / 2) ∧
    ((click bldAB 3).elevators.get? 0).map (fun e => e.queue) = some [3] := by
  constructor
  · intro b f fl i m hf ht hne hd
    obtain ⟨hex, hall, hfirst⟩ := dispatchScan_spec b.elevators f i m hne hd
    exact ⟨hex, hall, hfirst, click_of_some b f fl i m hf ht hd⟩
  · refine ⟨by norm_num [elevA, initElevator, Elevator.calculate_time],
      by norm_num [elevB, initElevator, Elevator.calculate_time], ?_, ?_⟩
    · rw [bldAB_eq]
      norm_num [dispatchScan, scanLoop, Elevator.calculate_time]
    · rw [click_bldAB_eq]
      rfl

/-- C2 witness: the general statement applied to the concrete A/B building
and floor 3. -/
theorem c2_min_dispatch_witness :
    (3 / 2 : ℚ) ≤ elevB.calculate_time 3 ∧
    click bldAB 3 =
      { bldAB with
          elevators := updateAt bldAB.elevators 0 (fun e => e.add_to_queue 3)
          floors := updateAt bldAB.floors 3 (fun g => g.increment_timer (3 / 2)) } := by
  have h := c2_min_dispatch.1 bldAB 3 ⟨3, 96, 0⟩ 0 (3 / 2)
    (by rw [bldAB_eq]; rfl) (by norm_num)
    (by rw [bldAB_eq]
        intro e he
        simp only [List.mem_cons, List.not_mem_nil, or_false] at he
        rcases he with rfl | rfl <;> decide)
    (by rw [bldAB_eq]
        norm_num [dispatchScan, scanLoop, Elevator.calculate_time])
  exact ⟨h.2.1 1 elevB rfl, h.2.2.2⟩

/-! ### C3: side effects of a successful dispatch -/

/-- C3 counterexample: dispatching floor 3 in a fresh one-elevator building
raises the elevator's committed work by 7/2 (distance cost plus the fixed
dwell penalty) while the floor's call timer is set to the estimate 3/2; the
two amounts differ. -/
theorem c3_counterexample :
    ((click bld1 3).elevators.get? 0).map (fun e => e.time_elapsed) = some (7 / 2) ∧
    ((click bld1 3).floors.get? 3).map (fun g => g.time) = some (3 / 2) ∧
    (7 / 2 : ℚ) ≠ 3 / 2 := by
  rw [click_bld1_eq]
  refine ⟨rfl, rfl, by norm_num⟩

/-- C3 (amended): a successful dispatch appends the floor to the chosen
elevator's queue, sets its lastAssignedFloor to the floor, raises its
committed work by |floor - lastAssigned| * speed + 2, and sets the floor's
call timer to the dispatch estimate committedWork + |floor - lastAssigned|/2;
the committed-work increase and the timer value are distinct quantities. -/
theorem c3_dispatch_side_effects :
    ∀ (b : Building) (f : ℕ) (fl : Floor) (i : ℕ) (m : ℚ) (e : Elevator),
      b.floors.get? f = some fl → fl.time ≤ 0 →
      (∀ e2 ∈ b.elevators, e2.target_floor ≠ f) →
      dispatchScan b.elevators f = some (i, m) →
      b.elevators.get? i = some e →
      (click b f).elevators.get? i = some (e.add_to_queue f) ∧
      (e.add_to_queue f).queue = e.queue ++ [f] ∧
      (e.add_to_queue f).last_floor = f ∧
      (e.add_to_queue f).time_elapsed
        = e.time_elapsed + (|(f : ℚ) - (e.last_floor : ℚ)| * e.elevator_speed + 2) ∧
      m = e.time_elapsed + |(f : ℚ) - (e.last_floor : ℚ)| / 2 ∧
      (click b f).floors.get? f = some { fl with time := m } := by
  intro b f fl i m e hf ht hne hd hei
  have hc := click_of_some b f fl i m hf ht hd
  obtain ⟨⟨ei, hei2, hm⟩, _, _⟩ := dispatchScan_spec b.elevators f i m hne hd
  rw [hei] at hei2
  obtain rfl : e = ei := by injection hei2
  have hincr : fl.increment_timer m = { fl with time := m } := by
    unfold Floor.increment_timer
    by_cases h0 : fl.time < 0
    · rw [if_pos h0]
    · rw [if_neg h0]
      have hz : fl.time = 0 := le_antisymm ht (le_of_not_lt h0)
      rw [hz, zero_add]
  refine ⟨?_, rfl, rfl, rfl, hm, ?_⟩
  · rw [hc]
    show (updateAt b.elevators i (fun e => e.add_to_queue f)).get? i = _
    rw [updateAt_get?_self, hei]
    rfl
  · rw [hc]
    show (updateAt b.floors f (fun g => g.increment_timer m)).get? f = _
    rw [updateAt_get?_self, hf]
    simp [hincr]

/-- C3 witness: the side-effect statement applied to a fresh one-elevator
building and floor 3. -/
theorem c3_dispatch_side_effects_witness :
    (click bld1 3).elevators.get? 0
      = some ((⟨0, 0, 99, 0, 1, (1/2 : ℚ), 0, 0, [], 0, Direction.PLACE, false⟩ :
          Elevator).add_to_queue 3) ∧
    ((⟨0, 0, 99, 0, 1, (1/2 : ℚ), 0, 0, [], 0, Direction.PLACE, false⟩ :
        Elevator).add_to_queue 3).queue = [] ++ [3] ∧
    ((⟨0, 0, 99, 0, 1, (1/2 : ℚ), 0, 0, [], 0, Direction.PLACE, false⟩ :
        Elevator).add_to_queue 3).last_floor = 3 ∧
    ((⟨0, 0, 99, 0, 1, (1/2 : ℚ), 0, 0, [], 0, Direction.PLACE, false⟩ :
        Elevator).add_to_queue 3).time_elapsed
      = 0 + (|(3 : ℚ) - ((0 : ℕ) : ℚ)| * (1/2 : ℚ) + 2) ∧
    (3 / 2 : ℚ) = 0 + |(3 : ℚ) - ((0 : ℕ) : ℚ)| / 2 ∧
    (click bld1 3).floors.get? 3 = some ⟨3, 96, (3/2 : ℚ)⟩ :=
  c3_dispatch_side_effects bld1 3 ⟨3, 96, 0⟩ 0 (3 / 2)
    ⟨0, 0, 99, 0, 1, (1/2 : ℚ), 0, 0, [], 0, Direction.PLACE, false⟩
    (by rw [bld1_eq]; rfl) (by norm_num)
    (by rw [bld1_eq]
        intro e2 he2
        simp only [List.mem_cons, List.not_mem_nil, or_false] at he2
        rcases he2 with rfl
        decide)
    (by rw [bld1_eq]
        norm_num [dispatchScan, scanLoop, Elevator.calculate_time])
    (by rw [bld1_eq]; rfl)

/-! ### C4: arrival detection and (non-)snapping -/

/-- C4 counterexample: an elevator moving up from height 99 toward target
height 90 with a tick delta whose motion distance is 20 ends the tick at 79 -
past the target, not snapped to it - with no arrival flag and no dwell. -/
theorem c4_counterexample :
    ((⟨0, 0, 99, 9, 1, (1/2 : ℚ), 0, 0, [], 9, Direction.UP, false⟩ :
        Elevator).update_position 10 0 90).1.location_y = 79 ∧
    ((⟨0, 0, 99, 9, 1, (1/2 : ℚ), 0, 0, [], 9, Direction.UP, false⟩ :
        Elevator).update_position 10 0 90).2 = 0 ∧
    ((⟨0, 0, 99, 9, 1, (1/2 : ℚ), 0, 0, [], 9, Direction.UP, false⟩ :
        Elevator).update_position 10 0 90).1.stay = false ∧
    (79 : ℚ) < 90 ∧
    ((⟨0, 0, 99, 9, 1, (1/2 : ℚ), 0, 0, [], 9, Direction.UP, false⟩ :
        Elevator).update_position 10 0 90).1.location_y ≠ 90 := by
  norm_num [Elevator.update_position]

/-- C4 (amended): a MOVING_UP elevator strictly above the target height -
and symmetrically a MOVING_DOWN elevator strictly below it - moves the full
motion delta with no clamping to the target (it can overshoot), and the tick
reports no arrival; arrival happens on the first tick that starts with the
elevator at or beyond the target height in its travel direction, which
leaves the position unchanged (no snap), sets PLACE and stay, and emits the
ring with the target floor. -/
theorem c4_no_snap_arrival :
    ∀ (e : Elevator) (ct lt h : ℚ),
      ((e.travel_direction = Direction.UP → e.location_y > h →
          e.update_position ct lt h
            = ({ e with location_y :=
                  e.location_y - (ct - lt) * e.floor_height / e.elevator_speed }, 0)) ∧
       (e.travel_direction = Direction.UP → ¬ e.location_y > h →
          e.update_position ct lt h
            = ({ e with travel_direction := Direction.PLACE, stay := true }, 1)) ∧
       (e.travel_direction = Direction.UP → e.stay = false → e.time_elapsed ≤ 0 →
          ¬ e.location_y > h →
          e.process_movement h ct lt
            = ({ e with time_elapsed := 0, travel_direction := Direction.PLACE, stay := true },
               some e.target_floor)) ∧
       (e.travel_direction = Direction.DOWN → e.location_y < h →
          e.update_position ct lt h
            = ({ e with location_y :=
                  e.location_y + (ct - lt) * e.floor_height / e.elevator_speed }, 0)) ∧
       (e.travel_direction = Direction.DOWN → ¬ e.location_y < h →
          e.update_position ct lt h
            = ({ e with travel_direction := Direction.PLACE, stay := true }, 1)) ∧
       (e.travel_direction = Direction.DOWN → e.stay = false → e.time_elapsed ≤ 0 →
          ¬ e.location_y < h →
          e.process_movement h ct lt
            = ({ e with time_elapsed := 0, travel_direction := Direction.PLACE, stay := true },
               some e.target_floor))) := by
  intro e ct lt h
  refine ⟨?_, ?_, ?_, ?_, ?_, ?_⟩
  · intro hdir hy
    unfold Elevator.update_position
    rw [if_pos ⟨hdir, hy⟩]
  · intro hdir hy
    unfold Elevator.update_position
    rw [if_neg (fun hc => hy hc.2),
      if_neg (fun hc => by rw [hdir] at hc; exact absurd hc.1 (by decide))]
  · intro hdir hstay hte hy
    have hc1 : ¬ (Direction.UP = Direction.UP ∧ e.location_y > h) := fun hc => hy hc.2
    have hc2 : ¬ (Direction.UP = Direction.DOWN ∧ e.location_y < h) :=
      fun hc => absurd hc.1 (by decide)
    simp only [Elevator.process_movement, Elevator.update_position,
      if_neg (not_lt.mpr hte)]
    try dsimp only
    rw [hstay, hdir]
    rw [if_neg (by decide : ¬ (false = true))]
    rw [if_pos (by decide : (Direction.UP : Direction) ≠ Direction.PLACE)]
    rw [if_neg hc1, if_neg hc2]
    simp
  · intro hdir hy
    unfold Elevator.update_position
    rw [if_neg (fun hc => by rw [hdir] at hc; exact absurd hc.1 (by decide)),
      if_pos ⟨hdir, hy⟩]
  · intro hdir hy
    unfold Elevator.update_position
    rw [if_neg (fun hc => by rw [hdir] at hc; exact absurd hc.1 (by decide)),
      if_neg (fun hc => hy hc.2)]
  · intro hdir hstay hte hy
    have hc1 : ¬ (Direction.DOWN = Direction.UP ∧ e.location_y > h) :=
      fun hc => absurd hc.1 (by decide)
    have hc2 : ¬ (Direction.DOWN = Direction.DOWN ∧ e.location_y < h) := fun hc => hy hc.2
    simp only [Elevator.process_movement, Elevator.update_position,
      if_neg (not_lt.mpr hte)]
    try dsimp only
    rw [hstay, hdir]
    rw [if_neg (by decide : ¬ (false = true))]
    rw [if_pos (by decide : (Direction.DOWN : Direction) ≠ Direction.PLACE)]
    rw [if_neg hc1, if_neg hc2]
    simp

/-- C4 witness: the amended statement applied to a MOVING_UP elevator
exactly at the target height, to a MOVING_DOWN elevator exactly at the
target height, and to a MOVING_DOWN elevator strictly below it (full-delta
move, no arrival). -/
theorem c4_no_snap_arrival_witness :
    (⟨0, 0, 90, 9, 1, (1/2 : ℚ), 0, 0, [], 9, Direction.UP, false⟩ :
        Elevator).update_position 1 0 90
      = (⟨0, 0, 90, 9, 1, (1/2 : ℚ), 0, 0, [], 9, Direction.PLACE, true⟩, 1) ∧
    (⟨0, 0, 90, 9, 1, (1/2 : ℚ), 0, 0, [], 9, Direction.UP, false⟩ :
        Elevator).process_movement 90 1 0
      = (⟨0, 0, 90, 9, 1, (1/2 : ℚ), 0, 0, [], 9, Direction.PLACE, true⟩, some 9) ∧
    (⟨0, 9, 97, 2, 1, (1/2 : ℚ), 0, 0, [], 2, Direction.DOWN, false⟩ :
        Elevator).update_position 1 0 97
      = (⟨0, 9, 97, 2, 1, (1/2 : ℚ), 0, 0, [], 2, Direction.PLACE, true⟩, 1) ∧
    (⟨0, 9, 97, 2, 1, (1/2 : ℚ), 0, 0, [], 2, Direction.DOWN, false⟩ :
        Elevator).process_movement 97 1 0
      = (⟨0, 9, 97, 2, 1, (1/2 : ℚ), 0, 0, [], 2, Direction.PLACE, true⟩, some 2) ∧
    (⟨0, 9, 90, 2, 1, (1/2 : ℚ), 0, 0, [], 2, Direction.DOWN, false⟩ :
        Elevator).update_position 1 0 97
      = (⟨0, 9, 92, 2, 1, (1/2 : ℚ), 0, 0, [], 2, Direction.DOWN, false⟩, 0) := by
  have hup := c4_no_snap_arrival
    ⟨0, 0, 90, 9, 1, (1/2 : ℚ), 0, 0, [], 9, Direction.UP, false⟩ 1 0 90
  have hdn := c4_no_snap_arrival
    ⟨0, 9, 97, 2, 1, (1/2 : ℚ), 0, 0, [], 2, Direction.DOWN, false⟩ 1 0 97
  have hmv := c4_no_snap_arrival
    ⟨0, 9, 90, 2, 1, (1/2 : ℚ), 0, 0, [], 2, Direction.DOWN, false⟩ 1 0 97
  refine ⟨hup.2.1 rfl (by norm_num), hup.2.2.1 rfl rfl (by norm_num) (by norm_num),
    hdn.2.2.2.2.1 rfl (by norm_num), hdn.2.2.2.2.2 rfl rfl (by norm_num) (by norm_num),
    ?_⟩
  have hm := hmv.2.2.2.1 rfl (by norm_num)
  rw [hm]
  norm_num

/-! ### C5: IDLE vs empty queue -/

/-- C5 counterexample: immediately after dispatching floor 5 in a fresh
two-elevator building - a reachable state - elevator 0 is IDLE (direction
PLACE, not dwelling) while its queue is the nonempty [5], refuting the
claimed equivalence. -/
theorem c5_counterexample :
    Reach (initBuilding 9 2 1 100 0) b5 ∧
    (b5.elevators.get? 0).map (fun e => (e.travel_direction, e.stay, e.queue))
      = some (Direction.PLACE, false, [5]) ∧
    ([5] : List ℕ) ≠ [] := by
  refine ⟨Reach.step_click _ 5 Reach.start, ?_, by decide⟩
  rw [b5_eq]
  rfl

/-- C5 (amended): the biconditional holds only tick-to-tick: an IDLE
elevator (direction PLACE, not dwelling) with an empty queue is still IDLE
after a tick, while an IDLE elevator with a nonempty queue leaves IDLE on the
next tick (it pops the head and becomes MOVING); between a dispatch and the
next tick an elevator can be IDLE with a nonempty queue, and while serving
its last assignment it is MOVING or DWELLING with an empty queue. -/
theorem c5_idle_queue_tick :
    ∀ (e : Elevator) (h ct lt : ℚ),
      e.travel_direction = Direction.PLACE → e.stay = false →
      ((e.queue = [] →
          (e.process_movement h ct lt).1.travel_direction = Direction.PLACE ∧
          (e.process_movement h ct lt).1.stay = false ∧
          (e.process_movement h ct lt).1.queue = []) ∧
       (∀ t rest, e.queue = t :: rest →
          (e.process_movement h ct lt).1.travel_direction ≠ Direction.PLACE)) := by
  intro e h ct lt hdir hstay
  constructor
  · intro hq
    by_cases h0 : e.time_elapsed > 0
    · simp only [Elevator.process_movement, Elevator.add_time, if_pos h0]
      rw [hstay, hdir, hq]
      simp
    · simp only [Elevator.process_movement, if_neg h0]
      rw [hstay, hdir, hq]
      simp
  · intro t rest hq
    by_cases h0 : e.time_elapsed > 0
    · simp only [Elevator.process_movement, Elevator.add_time, if_pos h0]
      rw [hstay, hdir, hq]
      simp only [Bool.false_eq_true, if_false, reduceCtorEq, ne_eq, not_false_iff,
        not_true, if_true]
      split <;> decide
    · simp only [Elevator.process_movement, if_neg h0]
      rw [hstay, hdir, hq]
      simp only [Bool.false_eq_true, if_false, reduceCtorEq, ne_eq, not_false_iff,
        not_true, if_true]
      split <;> decide

/-- C5 witness: the tick-to-tick statement applied to a fresh elevator with
an empty queue and to the same elevator with queue [5]. -/
theorem c5_idle_queue_tick_witness :
    ((⟨0, 0, 99, 0, 1, (1/2 : ℚ), 0, 0, [], 0, Direction.PLACE, false⟩ :
        Elevator).process_movement 99 1 0).1.travel_direction = Direction.PLACE ∧
    ((⟨0, 0, 99, 0, 1, (1/2 : ℚ), 0, 0, [], 0, Direction.PLACE, false⟩ :
        Elevator).process_movement 99 1 0).1.stay = false ∧
    ((⟨0, 0, 99, 0, 1, (1/2 : ℚ), 0, 0, [], 0, Direction.PLACE, false⟩ :
        Elevator).process_movement 99 1 0).1.queue = [] ∧
    ((⟨0, 0, 99, 0, 1, (1/2 : ℚ), 0, 0, [5], 0, Direction.PLACE, false⟩ :
        Elevator).process_movement 99 1 0).1.travel_direction ≠ Direction.PLACE := by
  have h1 := c5_idle_queue_tick
    ⟨0, 0, 99, 0, 1, (1/2 : ℚ), 0, 0, [], 0, Direction.PLACE, false⟩ 99 1 0 rfl rfl
  have h2 := c5_idle_queue_tick
    ⟨0, 0, 99, 0, 1, (1/2 : ℚ), 0, 0, [5], 0, Direction.PLACE, false⟩ 99 1 0 rfl rfl
  exact ⟨(h1.1 rfl).1, (h1.1 rfl).2.1, (h1.1 rfl).2.2, h2.2 5 [] rfl⟩

/-! ### C6: no floor assigned to two elevators -/

/-- C6 counterexample: a reachable state (three clicks, three ticks, two
clicks, two ticks from a fresh two-elevator building) in which both elevators
are simultaneously MOVING_DOWN toward floor 3 - the queued copy of floor 3
inside elevator 1 was invisible to the dispatch guard when the expired floor
was re-clicked and given to elevator 0. -/
theorem c6_counterexample :
    Reach (initBuilding 9 2 1 100 0) traceC6 ∧
    2 ≤ servingCount traceC6 3 ∧
    (traceC6.elevators.get? 0).map (fun e => (e.target_floor, e.travel_direction, e.stay))
      = some (3, Direction.DOWN, false) ∧
    (traceC6.elevators.get? 1).map (fun e => (e.target_floor, e.travel_direction, e.stay))
      = some (3, Direction.DOWN, false) := by
  refine ⟨?_, ?_, ?_, ?_⟩
  · exact Reach.step_tick _ 50
      (Reach.step_tick _ 40
        (Reach.step_click _ 3
          (Reach.step_click _ 1
            (Reach.step_tick _ 30
              (Reach.step_tick _ 20
                (Reach.step_tick _ 10
                  (Reach.step_click _ 3
                    (Reach.step_click _ 8
                      (Reach.step_click _ 9 Reach.start)))
                  (by rw [prefixS3]; decide))
                (by rw [prefixS4]; decide))
              (by rw [prefixS5]; decide))))
        (by rw [prefixS8]; decide))
      (by rw [prefixS9]; decide)
  · rw [traceC6_eq]
    decide
  · rw [traceC6_eq]
    rfl
  · rw [traceC6_eq]
    rfl

/-- C6 (amended): the protection the dispatcher actually provides is only
instantaneous: a dispatch that succeeds (the scan returns a winner) implies
that at that moment no elevator had the requested floor as its current
target; floors sitting deeper in pending queues are not examined, and two
elevators can later both be moving toward the same floor. -/
theorem c6_no_dispatch_to_targeted :
    ∀ (b : Building) (f i : ℕ) (m : ℚ),
      dispatchScan b.elevators f = some (i, m) →
      ∀ e, e ∈ b.elevators → e.target_floor ≠ f := by
  intro b f i m hd e he hf
  rw [dispatchScan_none b.elevators f ⟨e, he, hf⟩] at hd
  exact absurd hd (by simp)

/-- C6 witness: the amended statement applied to the A/B building and
floor 3. -/
theorem c6_no_dispatch_to_targeted_witness :
    dispatchScan bldAB.elevators 3 = some (0, 3 / 2) ∧ elevA.target_floor ≠ 3 := by
  have hd : dispatchScan bldAB.elevators 3 = some (0, 3 / 2) := by
    rw [bldAB_eq]
    norm_num [dispatchScan, scanLoop, Elevator.calculate_time]
  exact ⟨hd, c6_no_dispatch_to_targeted bldAB 3 0 (3 / 2) hd elevA
    (List.mem_cons_self elevA [elevB])⟩

/-! ### C7: the floor timer tick -/

/-- C7 counterexample: a floor with one second left ticked by two seconds
ends at -1, not floored at 0; and a floor at -1 is reset to 0 by the next
tick, an increase. -/
theorem c7_counterexample :
    ((⟨3, 96, 1⟩ : Floor).timer 2 0).time = -1 ∧ (-1 : ℚ) < 0 ∧
    ((⟨3, 96, -1⟩ : Floor).timer 1 0).time = 0 ∧
    (⟨3, 96, -1⟩ : Floor).time < ((⟨3, 96, -1⟩ : Floor).timer 1 0).time := by
  norm_num [Floor.timer]

/-- C7 (amended): the tick subtracts the delta only when the timer is
positive, but the result is not floored at 0 within that same tick - it can
go negative, and a nonpositive timer is reset to 0 (an increase when it was
negative); starting from a nonnegative timer, a tick with nonnegative delta
never increases it. -/
theorem c7_floor_tick :
    ∀ (fl : Floor) (ct lt : ℚ), lt ≤ ct →
      ((fl.time > 0 → fl.timer ct lt = { fl with time := fl.time - (ct - lt) }) ∧
       (¬ fl.time > 0 → fl.timer ct lt = { fl with time := 0 }) ∧
       (0 ≤ fl.time → (fl.timer ct lt).time ≤ fl.time)) := by
  intro fl ct lt hle
  refine ⟨?_, ?_, ?_⟩
  · intro h0
    unfold Floor.timer
    rw [if_pos h0]
  · intro h0
    unfold Floor.timer
    rw [if_neg h0]
  · intro h0
    unfold Floor.timer
    by_cases h : fl.time > 0
    · rw [if_pos h]
      show fl.time - (ct - lt) ≤ fl.time
      linarith
    · rw [if_neg h]
      exact h0

/-- C7 witness: the tick statement applied to a floor with 5 seconds left
and a delta of 2. -/
theorem c7_floor_tick_witness :
    (⟨3, 96, 5⟩ : Floor).timer 2 0 = ⟨3, 96, 5 - (2 - 0)⟩ ∧
    ((⟨3, 96, 5⟩ : Floor).timer 2 0).time ≤ 5 := by
  have h := c7_floor_tick ⟨3, 96, 5⟩ 2 0 (by norm_num)
  exact ⟨h.1 (by norm_num), h.2.2 (by norm_num)⟩

/-! ### C8: revisiting the current floor -/

/-- C8 counterexample: a fresh elevator given its own floor 0 passes through
MOVING_DOWN on the tick that pops the queue head - it does not go straight to
DWELLING within that tick. -/
theorem c8_counterexample :
    (((initElevator 0 1 100).add_to_queue 0).process_movement 99 1 0).1.travel_direction
      = Direction.DOWN ∧
    (((initElevator 0 1 100).add_to_queue 0).process_movement 99 1 0).1.stay = false ∧
    (((initElevator 0 1 100).add_to_queue 0).process_movement 99 1 0).2 = none := by
  norm_num [reduceCtorEq, initElevator, Elevator.add_to_queue, Elevator.process_movement,
    Elevator.update_position, Elevator.add_time]

/-- C8 (amended): an IDLE elevator whose queue head equals its current
target floor pops it and spends one tick in MOVING_DOWN (the code maps the
equal case to DOWN); because its position is already at the target height it
moves zero distance, and the following tick detects arrival, emits the ring,
and enters DWELLING - so the elevator is not stuck, but the arrival is not
instantaneous and a MOVING state is traversed. -/
theorem c8_same_floor_revisit :
    ∀ (e : Elevator) (f : ℕ) (rest : List ℕ) (ct1 lt1 ct2 : ℚ),
      e.travel_direction = Direction.PLACE → e.stay = false → e.time_elapsed ≤ 0 →
      e.queue = f :: rest → e.target_floor = f →
      (e.process_movement e.location_y ct1 lt1).2 = none ∧
      (e.process_movement e.location_y ct1 lt1).1.travel_direction = Direction.DOWN ∧
      (e.process_movement e.location_y ct1 lt1).1.stay = false ∧
      (e.process_movement e.location_y ct1 lt1).1.target_floor = f ∧
      (e.process_movement e.location_y ct1 lt1).1.floor = f ∧
      (e.process_movement e.location_y ct1 lt1).1.location_y = e.location_y ∧
      ((e.process_movement e.location_y ct1 lt1).1.process_movement
          e.location_y ct2 ct1).1.stay = true ∧
      ((e.process_movement e.location_y ct1 lt1).1.process_movement
          e.location_y ct2 ct1).1.travel_direction = Direction.PLACE ∧
      ((e.process_movement e.location_y ct1 lt1).1.process_movement
          e.location_y ct2 ct1).1.location_y = e.location_y ∧
      ((e.process_movement e.location_y ct1 lt1).1.process_movement
          e.location_y ct2 ct1).2 = some f := by
  intro e f rest ct1 lt1 ct2 hdir hstay hte hq htf
  have h1 : e.process_movement e.location_y ct1 lt1
      = ({ e with
            time_elapsed := 0
            floor := f
            target_floor := f
            queue := rest
            travel_direction := Direction.DOWN }, none) := by
    simp only [Elevator.process_movement, if_neg (not_lt.mpr hte)]
    try dsimp only
    rw [hstay, hdir, hq, htf]
    rw [if_neg (by decide : ¬ (false = true))]
    rw [if_neg (by decide :
      ¬ ((Direction.PLACE : Direction) ≠ Direction.PLACE))]
    try dsimp only
    rw [if_neg (lt_irrefl f)]
  rw [h1]
  have h2 : ({ e with
        time_elapsed := 0
        floor := f
        target_floor := f
        queue := rest
        travel_direction := Direction.DOWN } : Elevator).process_movement
        e.location_y ct2 ct1
      = ({ e with
            time_elapsed := 0
            floor := f
            target_floor := f
            queue := rest
            travel_direction := Direction.PLACE
            stay := true }, some f) := by
    have hc1 : ¬ (Direction.DOWN = Direction.UP ∧ e.location_y > e.location_y) :=
      fun hc => absurd hc.1 (by decide)
    have hc2 : ¬ (Direction.DOWN = Direction.DOWN ∧ e.location_y < e.location_y) :=
      fun hc => absurd hc.2 (lt_irrefl _)
    simp only [Elevator.process_movement, Elevator.update_position]
    try dsimp only
    rw [if_neg (lt_irrefl (0 : ℚ))]
    try dsimp only
    rw [hstay]
    rw [if_neg (by decide : ¬ (false = true))]
    rw [if_pos (by decide : (Direction.DOWN : Direction) ≠ Direction.PLACE)]
    rw [if_neg hc1, if_neg hc2]
    simp
  rw [h2]
  exact ⟨rfl, rfl, hstay, rfl, rfl, rfl, rfl, rfl, rfl, rfl⟩

/-- C8 witness: the revisit statement applied to a fresh elevator whose
queue holds its own floor 0. -/
theorem c8_same_floor_revisit_witness :
    ((⟨0, 0, 99, 0, 1, (1/2 : ℚ), 0, 0, [0], 0, Direction.PLACE, false⟩ :
        Elevator).process_movement 99 1 0).1.travel_direction = Direction.DOWN ∧
    (((⟨0, 0, 99, 0, 1, (1/2 : ℚ), 0, 0, [0], 0, Direction.PLACE, false⟩ :
        Elevator).process_movement 99 1 0).1.process_movement 99 2 1).1.stay = true ∧
    (((⟨0, 0, 99, 0, 1, (1/2 : ℚ), 0, 0, [0], 0, Direction.PLACE, false⟩ :
        Elevator).process_movement 99 1 0).1.process_movement 99 2 1).2 = some 0 := by
  have h := c8_same_floor_revisit
    ⟨0, 0, 99, 0, 1, (1/2 : ℚ), 0, 0, [0], 0, Direction.PLACE, false⟩ 0 [] 1 0 2
    rfl rfl (by norm_num) rfl rfl
  exact ⟨h.2.1, h.2.2.2.2.2.2.1, h.2.2.2.2.2.2.2.2.2⟩

/-! ### C9: aborted dispatch changes nothing -/

/-- C9: a dispatch request for a floor some elevator currently targets
aborts with no state change at all - no queue, committed work, last assigned
floor or call timer is touched. -/
theorem c9_abort_no_change :
    ∀ (b : Building) (f : ℕ), (∃ e ∈ b.elevators, e.target_floor = f) → click b f = b := by
  intro b f h
  exact click_noop_of_target b f h

/-- C9 witness: clicking floor 0 of the A/B building, whose elevators both
target floor 0, changes nothing. -/
theorem c9_abort_no_change_witness : click bldAB 0 = bldAB :=
  c9_abort_no_change bldAB 0 ⟨elevA, List.mem_cons_self elevA [elevB], rfl⟩

/-! ### C10: floor 0 of a fresh building cannot be summoned -/

/-- C10: in a freshly initialized building with at least one elevator every
elevator targets floor 0, so a click on floor 0 is a silent no-op; more
generally a click on any floor where some elevator rests idle (direction
PLACE, not dwelling, empty queue, target equal to that floor) is a silent
no-op. -/
theorem c10_floor_zero_noop :
    ∀ (nf ne : ℕ) (fh hs t0 : ℚ), 1 ≤ ne →
      (click (initBuilding nf ne fh hs t0) 0 = initBuilding nf ne fh hs t0 ∧
       ∀ (b : Building) (f : ℕ),
         (∃ e ∈ b.elevators,
           e.travel_direction = Direction.PLACE ∧ e.stay = false ∧
           e.queue = [] ∧ e.target_floor = f) →
         click b f = b) := by
  intro nf ne fh hs t0 hne
  constructor
  · apply click_noop_of_target
    refine ⟨initElevator 0 fh hs, ?_, rfl⟩
    exact List.mem_map.mpr ⟨0, List.mem_range.mpr (by omega), rfl⟩
  · intro b f hex
    obtain ⟨e, he, _, _, _, ht⟩ := hex
    exact click_noop_of_target b f ⟨e, he, ht⟩

/-- C10 witness: clicking floor 0 of a fresh two-elevator building changes
nothing. -/
theorem c10_floor_zero_noop_witness :
    click (initBuilding 9 2 1 100 0) 0 = initBuilding 9 2 1 100 0 :=
  (c10_floor_zero_noop 9 2 1 100 0 (by norm_num)).1

end ElevatorSim

